import Mathlib

/-!
Shallow embedding of the URL-shortener server in src/app.js.

The server keeps a mapping from short codes to destination URLs in a JSON
file (data/links.json) and exposes three HTTP intents: POST /shorten
(create a mapping), GET /links (list all mappings) and GET /<code>
(redirect).  The embedding below models:

* the link table as an association list with JavaScript-object read/write
  semantics: `getKey`/`setKey` for the own properties, and `jsGet` for the
  full property read `links[c]`, which falls back to the prototype chain —
  `links` comes from `JSON.parse` (or an object literal), so it inherits
  the `Object.prototype` members (`toString`, `valueOf`, `constructor`,
  `hasOwnProperty`, ...), all of which are truthy; the handler guards
  `if (links[finalShortCode])`, `if (targetUrl)` and `if (!url)` use
  JavaScript truthiness (`jsTruthy`);
* the persisted record (the file) by its observable parse class
  (`FileContent`): absent, zero-length, a well-formed JSON object of
  strings, or non-empty unparseable bytes; JSON formatting is cosmetic and
  quotiented away, matching the spec's "pretty-printing is not part of the
  contract";
* `loadLinks` (app.js lines 42-61) and `saveLinks` (lines 67-70);
* the POST /shorten handler body (lines 82-114), split at its await points
  into two atomic phases so that interleavings of concurrent requests can
  be expressed;
* the GET /links branch (lines 127-130) and the redirection logic
  (lines 132-146);
* the generated token crypto.randomBytes(4).toString("hex") (line 94) as
  the hex encoding of a list of byte values (`bytesToHex`).
-/

namespace URLShortener

/-- The in-memory link table: the JavaScript object parsed from
links.json, a map from short code to destination URL, represented as an
association list in insertion order (JS objects preserve string-key
insertion order, and keys are unique). -/
abbrev LinkTable := List (String × String)

/-- JavaScript property read `links[c]`: the value bound to key `c`,
or `undefined` (here `none`) when absent. -/
def getKey : LinkTable → String → Option String
  | [], _ => none
  | (k, v) :: rest, c => if k = c then some v else getKey rest c

/-- JavaScript property write `links[c] = u`: update the existing binding
in place, or append a new one. -/
def setKey : LinkTable → String → String → LinkTable
  | [], c, u => [(c, u)]
  | (k, v) :: rest, c, u =>
      if k = c then (k, u) :: rest else (k, v) :: setKey rest c u

/-- Number of bindings a table holds for a given code. -/
def countKey (t : LinkTable) (c : String) : Nat :=
  (t.filter (fun p => p.1 == c)).length

/-- The own property names of `Object.prototype` in Node (V8), which any
object produced by `JSON.parse` — and the object literal returned on the
ENOENT path of loadLinks — inherits: reading `links[c]` for one of these
names on a table without an own binding for `c` yields the inherited
member (a function, or for `__proto__` the prototype object itself)
instead of `undefined`. -/
def objectPrototypeProps : List String :=
  ["constructor", "__defineGetter__", "__defineSetter__", "hasOwnProperty",
   "__lookupGetter__", "__lookupSetter__", "isPrototypeOf",
   "propertyIsEnumerable", "toString", "valueOf", "__proto__",
   "toLocaleString"]

/-- Result of the JavaScript property read `links[c]`: an own data
property holding a destination string, a member inherited from
`Object.prototype`, or `undefined`. -/
inductive JsValue
  | str (s : String)
  | inherited
  | undefined
deriving DecidableEq, Repr

/-- Full JavaScript property read `links[c]`: the own property when one
exists (an own data property — including one named `__proto__`, which
`JSON.parse` creates as a plain own key — shadows the prototype chain),
otherwise the truthy member inherited from `Object.prototype` when `c`
is one of its property names, otherwise `undefined`. -/
def jsGet (t : LinkTable) (c : String) : JsValue :=
  match getKey t c with
  | some s => .str s
  | none => if c ∈ objectPrototypeProps then .inherited else .undefined

/-- JavaScript truthiness of the value a property read produced:
`undefined` and the empty string are falsy; every other string, and
every inherited `Object.prototype` member (functions and the prototype
object), are truthy.  This is the test performed by
`if (links[finalShortCode])` (line 97) and `if (targetUrl)` (line 138). -/
def jsTruthy : JsValue → Bool
  | .str s => s != ""
  | .inherited => true
  | .undefined => false

/-- Observable states of the persisted record data/links.json, classified
by how `readFile` + `JSON.parse` see it: the file is absent, it exists
with zero length, it holds JSON parsing to an object of strings (`table`),
it holds non-empty bytes that `JSON.parse` rejects (`corrupt`), or reading
it fails with an I/O error other than ENOENT (`unreadable`).  Formatting
of the JSON text is cosmetic and not represented. -/
inductive FileContent
  | absent
  | empty
  | table (t : LinkTable)
  | corrupt
  | unreadable
deriving DecidableEq, Repr

/-- Outcome of `loadLinks`: the parsed table, a thrown `JSON.parse` error
(the spec's CorruptStore), or a rethrown non-ENOENT read error (the
spec's StoreUnavailable). -/
inductive LoadResult
  | ok (t : LinkTable)
  | parseError
  | readError
deriving DecidableEq, Repr

/-- `loadLinks` (app.js lines 42-61): read the record; if the content is
zero-length return the empty object; otherwise `JSON.parse` it (throwing
on corrupt bytes); if the read fails with ENOENT, write an empty object
to the file and return the empty table; rethrow any other read error.
Returns the result together with the record state after the call. -/
def loadLinks : FileContent → LoadResult × FileContent
  | .absent => (.ok [], .table [])
  | .empty => (.ok [], .empty)
  | .table t => (.ok t, .table t)
  | .corrupt => (.parseError, .corrupt)
  | .unreadable => (.readError, .unreadable)

/-- `saveLinks` (app.js lines 67-70): overwrite the record with
`JSON.stringify(links, null, 2)`, whose bytes parse back to the table. -/
def saveLinks (t : LinkTable) : FileContent := .table t

/-- The record states a concurrent reader can observe while `saveLinks`
runs.  `writeFile(DATA_FILE, text)` uses flag "w": the file is opened
with O_TRUNC, truncating it to zero length, and the bytes are then
written, so the zero-length state is observable before the write lands;
only after the write completes does the record hold the saved table.
No temporary file and rename is involved. -/
def saveLinksTrace (t : LinkTable) : List FileContent :=
  [.empty, .table t]

/-- Response outcome of the POST /shorten handler: 201 with the assigned
code, 400 "URL is required.", 400 "Short code already exists.", or the
catch-all 500 "Server error." (lines 109-113). -/
inductive ShortenResult
  | created (code : String)
  | badRequestMissingUrl
  | badRequestConflict
  | serverError
deriving DecidableEq, Repr

/-- Line 94: `shortCode || crypto.randomBytes(4).toString("hex")` — a
falsy `shortCode` (absent from the body, or the empty string) selects the
freshly generated token, given here as `generated`. -/
def finalShortCode (shortCode : Option String) (generated : String) : String :=
  match shortCode with
  | none => generated
  | some s => if s = "" then generated else s

/-- First atomic segment of a POST /shorten execution: the handler runs
up to `await loadLinks()` (line 84) and resumes with its local view of
the table once the read completes. -/
def shortenPhase1 (f : FileContent) : LoadResult × FileContent :=
  loadLinks f

/-- Second atomic segment of a POST /shorten execution (lines 85-113),
given the local load result from phase 1: parse the body (already decoded
here into `url` and `shortCode`), reject a falsy url with 400, pick the
candidate code, reject a truthy `links[finalShortCode]` with 400 — truthy
also, via the prototype chain, for an `Object.prototype` property name
that has no own binding — otherwise insert into the local table and write
it out with `saveLinks`; a load failure is caught by the surrounding try
and answered with 500.  The insert `links[finalShortCode] = url` is a
plain own-property creation: it only runs when the guard was falsy, so
the candidate is never an inherited name (in particular never the
`__proto__` accessor). -/
def shortenPhase2 (loaded : LoadResult) (url : String) (shortCode : Option String)
    (generated : String) (f : FileContent) : ShortenResult × FileContent :=
  match loaded with
  | .ok links =>
      if url = "" then (.badRequestMissingUrl, f)
      else
        let code := finalShortCode shortCode generated
        if jsTruthy (jsGet links code) then (.badRequestConflict, f)
        else (.created code, saveLinks (setKey links code url))
  | .parseError => (.serverError, f)
  | .readError => (.serverError, f)

/-- A full, uninterleaved POST /shorten execution: phase 1 then phase 2
against the same record. -/
def handleShorten (f : FileContent) (url : String) (shortCode : Option String)
    (generated : String) : ShortenResult × FileContent :=
  let r := shortenPhase1 f
  shortenPhase2 r.1 url shortCode generated r.2

/-- Two POST /shorten calls for the same requested code `c` executed one
after the other (the first runs to completion before the second starts). -/
def twoSequential (f : FileContent) (u₁ u₂ c g₁ g₂ : String) :
    ShortenResult × ShortenResult × FileContent :=
  let r₁ := handleShorten f u₁ (some c) g₁
  let r₂ := handleShorten r₁.2 u₂ (some c) g₂
  (r₁.1, r₂.1, r₂.2)

/-- Two concurrent POST /shorten calls for the same requested code `c`
under the schedule read₁, read₂, write₁, write₂: both handlers complete
their `await loadLinks()` before either resumes at its check-insert-save
segment.  Nothing in app.js excludes this schedule: the handler holds no
lock across its await points. -/
def twoInterleaved (f : FileContent) (u₁ u₂ c g₁ g₂ : String) :
    ShortenResult × ShortenResult × FileContent :=
  let l₁ := shortenPhase1 f
  let l₂ := shortenPhase1 l₁.2
  let r₁ := shortenPhase2 l₁.1 u₁ (some c) g₁ l₂.2
  let r₂ := shortenPhase2 l₂.1 u₂ (some c) g₂ r₁.2
  (r₁.1, r₂.1, r₂.2)

/-- Response outcome of the GET /links branch: 200 with the JSON mapping,
or — since lines 127-130 sit in no try/catch — a load failure escapes the
handler as an unhandled rejection and no response is written at all. -/
inductive LinksResult
  | okJson (t : LinkTable)
  | unhandledRejection
deriving DecidableEq, Repr

/-- GET /links branch (app.js lines 127-130): `await loadLinks()` and
answer 200 with `JSON.stringify(links)`; there is no try/catch around
this branch, so a thrown load error propagates out of the server callback
and no response is produced. -/
def handleLinks (f : FileContent) : LinksResult × FileContent :=
  match loadLinks f with
  | (.ok t, f₁) => (.okJson t, f₁)
  | (.parseError, f₁) => (.unhandledRejection, f₁)
  | (.readError, f₁) => (.unhandledRejection, f₁)

/-- Response outcome of the redirection logic: a 301 redirect whose
Location header is a stored destination; a 301 whose Location is Node's
string rendering of an inherited `Object.prototype` member (the lookup
`links[shortCode]` hit the prototype chain, the truthy function passes
the guard, and writeHead accepts its all-printable-ASCII source text as
a header value); or fall-through to the generic "404 Not Found" fallback
(lines 150-152). -/
inductive RedirectResult
  | redirect (location : String)
  | redirectInherited
  | fallThrough404
deriving DecidableEq, Repr

/-- Redirection logic (app.js lines 132-146): inside a try, load the
table, strip the request path's leading slash (`req.url.slice(1)`), read
`links[shortCode]` — own property first, then the prototype chain — and
redirect when the value is truthy; a thrown load error is caught,
logged, and execution falls through to the generic 404 — exactly as an
unknown code does. -/
def handleRedirect (f : FileContent) (reqUrl : String) : RedirectResult × FileContent :=
  match loadLinks f with
  | (.ok links, f₁) =>
      let shortCode := reqUrl.drop 1
      match jsGet links shortCode with
      | .str target => if target = "" then (.fallThrough404, f₁) else (.redirect target, f₁)
      | .inherited => (.redirectInherited, f₁)
      | .undefined => (.fallThrough404, f₁)
  | (.parseError, f₁) => (.fallThrough404, f₁)
  | (.readError, f₁) => (.fallThrough404, f₁)

/-- Lowercase hexadecimal digit for a value below 16, as produced by
Buffer.prototype.toString("hex"). -/
def hexDigit (n : Nat) : Char :=
  if n < 10 then Char.ofNat (48 + n) else Char.ofNat (87 + n)

/-- `Buffer.toString("hex")`: each byte rendered as two lowercase hex
digits.  `crypto.randomBytes(4)` supplies the four byte values. -/
def bytesToHex (bs : List Nat) : String :=
  String.mk (bs.flatMap fun b => [hexDigit (b / 16), hexDigit (b % 16)])

/-! Helper lemmas about the table and the generated token. -/

theorem getKey_setKey_self (t : LinkTable) (c u : String) :
    getKey (setKey t c u) c = some u := by
  induction t with
  | nil => simp [setKey, getKey]
  | cons p rest ih =>
      by_cases h : p.1 = c
      · simp [setKey, h, getKey]
      · simp [setKey, h, getKey, ih]

theorem countKey_setKey_of_absent (t : LinkTable) (c u : String)
    (h : getKey t c = none) : countKey (setKey t c u) c = 1 := by
  induction t with
  | nil => simp [setKey, countKey]
  | cons p rest ih =>
      by_cases hp : p.1 = c
      · simp [getKey, hp] at h
      · simp [getKey, hp] at h
        simp [setKey, hp, countKey, List.filter] at ih ⊢
        exact ih h

theorem shortenPhase2_ok_ne_serverError (links : LinkTable) (url : String)
    (sc : Option String) (g : String) (f : FileContent) :
    (shortenPhase2 (.ok links) url sc g f).1 ≠ .serverError := by
  simp only [shortenPhase2]
  split_ifs <;> simp

theorem shortenPhase2_parseError (url : String) (sc : Option String)
    (g : String) (f : FileContent) :
    shortenPhase2 .parseError url sc g f = (.serverError, f) := rfl

theorem shortenPhase2_readError (url : String) (sc : Option String)
    (g : String) (f : FileContent) :
    shortenPhase2 .readError url sc g f = (.serverError, f) := rfl

theorem slash_drop (c : String) : (("/" : String) ++ c).drop 1 = c := by
  rw [String.drop_eq]
  cases c with
  | mk l => rfl

theorem bytesToHex_length (bs : List Nat) :
    (bytesToHex bs).length = 2 * bs.length := by
  induction bs with
  | nil => rfl
  | cons b rest ih =>
      simp [bytesToHex, String.length] at ih ⊢
      omega

theorem hexDigit_mem (n : Nat) (h : n < 16) :
    hexDigit n ∈ ("0123456789abcdef" : String).data := by
  interval_cases n <;> decide

theorem bytesToHex_chars (bs : List Nat) (h : ∀ b ∈ bs, b < 256) :
    ∀ ch ∈ (bytesToHex bs).data, ch ∈ ("0123456789abcdef" : String).data := by
  intro ch hch
  induction bs with
  | nil => simp [bytesToHex] at hch
  | cons b rest ih =>
      simp [bytesToHex] at hch
      rcases hch with h1 | h1 | h1
      · subst h1
        exact hexDigit_mem _ (by have := h b (by simp); omega)
      · subst h1
        exact hexDigit_mem _ (Nat.mod_lt _ (by omega))
      · exact ih (fun x hx => h x (by simp [hx])) (by simp [bytesToHex]; exact h1)

/-! Claim theorems. -/

/-- Counterexample to C1: the requested code "toString" has no binding
in the empty table, and the destination is valid, yet createLink fails
with the conflict 400 — `links["toString"]` reaches the truthy function
inherited from `Object.prototype`, so the guard at app.js:97 fires even
though the code is absent from the table. -/
theorem create_conflicts_on_prototype_name_cex :
    getKey [] "toString" = none ∧
    handleShorten (.table []) "https://example.com" (some "toString") "11223344"
      = (.badRequestConflict, .table []) := by
  refine ⟨rfl, by decide⟩

/-- C1 amended: for every valid pair (destination, requestedCode) — a
non-empty destination, and a non-empty requested code that is absent
from the current table and is not one of the `Object.prototype` property
names the table's object inherits — createLink succeeds: the POST
/shorten handler answers 201 with the assigned code, the table gains the
binding code to destination, the table is persisted (the record
afterwards holds exactly the updated table), and a subsequent resolve of
that code answers a 301 redirect to exactly that destination. -/
theorem create_success_persists_and_resolves (t : LinkTable) (url c g : String)
    (hurl : url ≠ "") (hc : c ≠ "") (habs : getKey t c = none)
    (hproto : c ∉ objectPrototypeProps) :
    handleShorten (.table t) url (some c) g
      = (.created c, .table (setKey t c url)) ∧
    (handleRedirect (.table (setKey t c url)) ("/" ++ c)).1 = .redirect url := by
  constructor
  · simp [handleShorten, shortenPhase1, shortenPhase2, loadLinks, finalShortCode,
      hc, jsGet, habs, hproto, jsTruthy, hurl, saveLinks]
  · simp [handleRedirect, loadLinks, slash_drop, jsGet, getKey_setKey_self, hurl]

/-- Witness for the amended C1 at a concrete input. -/
theorem create_success_persists_and_resolves_witness :
    handleShorten (.table []) "https://example.com" (some "abc") "11223344"
      = (.created "abc", .table [("abc", "https://example.com")]) ∧
    (handleRedirect (.table [("abc", "https://example.com")]) ("/" ++ "abc")).1
      = .redirect "https://example.com" :=
  create_success_persists_and_resolves [] "https://example.com" "abc" "11223344"
    (by decide) (by decide) (by decide) (by decide)

/-- C2: calling createLink twice with the same explicit (non-empty)
requested code, where the first call has actually succeeded with that
code (stated as a hypothesis on the handler's own outcome, so codes the
conflict guard rejects up front — e.g. `Object.prototype` names — never
satisfy it vacuously wrongly), yields the code-conflict error on the
second call, and both the table the second call worked on and the
persisted record are left unchanged by the failed call. -/
theorem create_twice_same_code_conflicts (t : LinkTable) (u₁ u₂ c g₁ g₂ : String)
    (f₁ : FileContent) (hc : c ≠ "") (hu₂ : u₂ ≠ "")
    (hfirst : handleShorten (.table t) u₁ (some c) g₁ = (.created c, f₁)) :
    handleShorten f₁ u₂ (some c) g₂ = (.badRequestConflict, f₁) := by
  simp only [handleShorten, shortenPhase1, loadLinks, shortenPhase2,
    finalShortCode, if_neg hc] at hfirst
  split_ifs at hfirst with hu₁ hg
  · simp at hfirst
  · simp at hfirst
  · obtain ⟨-, hf⟩ := Prod.mk.injEq .. ▸ hfirst
    subst hf
    simp [handleShorten, shortenPhase1, loadLinks, shortenPhase2, saveLinks,
      finalShortCode, hc, hu₂, jsGet, getKey_setKey_self, jsTruthy, hu₁]

/-- Witness for C2 at a concrete input. -/
theorem create_twice_same_code_conflicts_witness :
    handleShorten (.table [("dup", "https://a.example")]) "https://b.example"
        (some "dup") "bb11bb11"
      = (.badRequestConflict, .table [("dup", "https://a.example")]) :=
  create_twice_same_code_conflicts [] "https://a.example" "https://b.example"
    "dup" "aa00aa00" "bb11bb11" (.table [("dup", "https://a.example")])
    (by decide) (by decide) (by decide)

/-- C3: whenever the record loads successfully, a create request with an
empty destination fails with the invalid-input error (400 "URL is
required."), whatever the requested code; the table, in memory and as
persisted, still holds the same mapping, and if a record existed it is
untouched (when no record existed, loadLinks — which runs before the
validation — has already created an empty record holding the same empty
mapping). -/
theorem create_empty_destination_invalid (f : FileContent) (t : LinkTable)
    (sc : Option String) (g : String) (hload : (loadLinks f).1 = .ok t) :
    (handleShorten f "" sc g).1 = .badRequestMissingUrl ∧
    (loadLinks (handleShorten f "" sc g).2).1 = .ok t ∧
    (f ≠ .absent → (handleShorten f "" sc g).2 = f) := by
  cases f <;>
    simp_all [handleShorten, shortenPhase1, shortenPhase2, loadLinks]

/-- Witness for C3 at a concrete input. -/
theorem create_empty_destination_invalid_witness :
    (handleShorten (.table [("a", "https://x.example")]) "" (some "c") "gg").1
      = .badRequestMissingUrl ∧
    (loadLinks (handleShorten (.table [("a", "https://x.example")]) ""
        (some "c") "gg").2).1 = .ok [("a", "https://x.example")] ∧
    (FileContent.table [("a", "https://x.example")] ≠ .absent →
      (handleShorten (.table [("a", "https://x.example")]) "" (some "c") "gg").2
        = .table [("a", "https://x.example")]) :=
  create_empty_destination_invalid (.table [("a", "https://x.example")])
    [("a", "https://x.example")] (some "c") "gg" rfl

/-- C4: loadLinks returns an empty table when no record exists and leaves
behind a freshly created record holding the empty mapping; a record that
exists but is zero-length also loads as the empty table rather than as a
parse error; and a record that is non-empty but unparseable makes
loadLinks fail with the thrown parse error (the spec's CorruptStore),
leaving the record as it is rather than silently recovering. -/
theorem loadLinks_record_states :
    loadLinks .absent = (.ok [], .table []) ∧
    loadLinks .empty = (.ok [], .empty) ∧
    loadLinks .corrupt = (.parseError, .corrupt) :=
  ⟨rfl, rfl, rfl⟩

/-- Counterexample to C5: saving the one-entry table leaves the
truncated zero-length record observable to a concurrent reader (the
first state of the write trace), and that state loads as the empty
table, not as the table being saved — a reader can observe a partial
write, so the save is not atomic and no temp-and-rename is involved. -/
theorem save_not_atomic_cex :
    FileContent.empty ∈ saveLinksTrace [("a", "https://x.example")] ∧
    (loadLinks .empty).1 = .ok [] ∧
    LoadResult.ok ([] : LinkTable) ≠ .ok [("a", "https://x.example")] := by
  refine ⟨by simp [saveLinksTrace], rfl, by simp⟩

/-- C5 amended: saveLinks overwrites the record in place with a single
writeFile — the record is truncated to zero length and the bytes are
then written, so a concurrent reader can observe the truncated state,
which loads as the empty table rather than the saved one; only once the
write completes does the record hold exactly the saved table.  No
temporary-location-and-rename (or other atomic-replace) step exists. -/
theorem save_inplace_truncate_then_write (t : LinkTable) :
    saveLinksTrace t = [.empty, saveLinks t] ∧
    (loadLinks .empty).1 = .ok [] ∧
    (loadLinks (saveLinks t)).1 = .ok t :=
  ⟨rfl, rfl, rfl⟩

/-- Counterexample to C6: two concurrent createLink calls for the same
fresh explicit code, under the schedule where both handlers complete
their awaited load before either resumes — a schedule nothing in the
code excludes, as no lock is held across the await points — both pass
the collision check against their stale local copies and both succeed
with 201, instead of exactly one success and one CodeConflict. -/
theorem concurrent_create_both_succeed_cex :
    twoInterleaved (.table []) "https://a.example" "https://b.example"
        "abc" "11111111" "22222222"
      = (.created "abc", .created "abc",
         .table [("abc", "https://b.example")]) := by
  decide

/-- C6 amended: the handler holds no lock across its await points, so
the load-check-insert-persist sequence is not serialized: for an
ordinary code — non-empty, absent from the table, and not an
`Object.prototype` property name — when the calls happen to run without
interleaving, exactly one succeeds, the other fails with CodeConflict,
and the table afterwards holds exactly one entry for the code; but under
the interleaved read-read-write-write schedule both calls succeed, so
the exactly-one-success outcome is not guaranteed for concurrent
calls. -/
theorem concurrent_create_not_serialized (t : LinkTable) (u₁ u₂ c g₁ g₂ : String)
    (hu₁ : u₁ ≠ "") (hu₂ : u₂ ≠ "") (hc : c ≠ "") (habs : getKey t c = none)
    (hproto : c ∉ objectPrototypeProps) :
    twoSequential (.table t) u₁ u₂ c g₁ g₂
      = (.created c, .badRequestConflict, .table (setKey t c u₁)) ∧
    countKey (setKey t c u₁) c = 1 ∧
    twoInterleaved (.table t) u₁ u₂ c g₁ g₂
      = (.created c, .created c, .table (setKey t c u₂)) := by
  refine ⟨?_, countKey_setKey_of_absent t c u₁ habs, ?_⟩
  · simp [twoSequential, handleShorten, shortenPhase1, shortenPhase2, loadLinks,
      finalShortCode, hc, jsGet, habs, hproto, jsTruthy, hu₁, hu₂, saveLinks,
      getKey_setKey_self]
  · simp [twoInterleaved, shortenPhase1, shortenPhase2, loadLinks,
      finalShortCode, hc, jsGet, habs, hproto, jsTruthy, hu₁, hu₂, saveLinks]

/-- Witness for the amended C6 at a concrete input. -/
theorem concurrent_create_not_serialized_witness :
    twoSequential (.table []) "https://a.example" "https://b.example"
        "abc" "11111111" "22222222"
      = (.created "abc", .badRequestConflict,
         .table [("abc", "https://a.example")]) ∧
    countKey [("abc", "https://a.example")] "abc" = 1 ∧
    twoInterleaved (.table []) "https://a.example" "https://b.example"
        "abc" "11111111" "22222222"
      = (.created "abc", .created "abc",
         .table [("abc", "https://b.example")]) :=
  concurrent_create_not_serialized [] "https://a.example" "https://b.example"
    "abc" "11111111" "22222222" (by decide) (by decide) (by decide) (by decide)
    (by decide)

/-- C7 evaluated at the failing input: GET /links answers 200 with the
full mapping whenever the record loads, but when the load fails (corrupt
record, or any other read error) the exception escapes the handler —
the branch sits in no try/catch — so no response at all is produced,
not the 500 the claim states. -/
theorem links_read_failure_goes_unhandled :
    (∀ t, handleLinks (.table t) = (.okJson t, .table t)) ∧
    handleLinks .corrupt = (.unhandledRejection, .corrupt) ∧
    handleLinks .unreadable = (.unhandledRejection, .unreadable) :=
  ⟨fun _ => rfl, rfl, rfl⟩

/-- Counterexample to C8: with a corrupt record, the redirection logic
catches the load failure (logging it to the console only) and falls
through to the generic 404 — the very same observable response an
unknown code produces on a healthy store — so the CorruptStore failure
is swallowed rather than surfaced to the caller as an error. -/
theorem redirect_swallows_store_error_cex :
    (handleRedirect .corrupt "/abc").1 = .fallThrough404 ∧
    (handleRedirect (.table []) "/abc").1 = .fallThrough404 := by
  constructor
  · rfl
  · simp [handleRedirect, loadLinks, jsGet, getKey]
    decide

/-- C8 amended: the create intent surfaces every failure — invalid
input and code conflict as their 400 responses, and 500 exactly when the
store load fails — but the resolve intent catches store-load failures
and falls through to the generic 404, indistinguishable from an unknown
code, and the list intent lets the failure escape as an unhandled
rejection instead of mapping it to a response. -/
theorem error_surfacing_per_intent (f : FileContent) (url : String)
    (sc : Option String) (g reqUrl : String) :
    ((handleShorten f url sc g).1 = .serverError ↔
      (loadLinks f).1 = .parseError ∨ (loadLinks f).1 = .readError) ∧
    (handleRedirect .corrupt reqUrl).1 = .fallThrough404 ∧
    (handleRedirect .unreadable reqUrl).1 = .fallThrough404 ∧
    handleLinks .corrupt = (.unhandledRejection, .corrupt) ∧
    handleLinks .unreadable = (.unhandledRejection, .unreadable) := by
  refine ⟨?_, rfl, rfl, rfl, rfl⟩
  cases f <;>
    simp [handleShorten, shortenPhase1, loadLinks, shortenPhase2_ok_ne_serverError,
      shortenPhase2_parseError, shortenPhase2_readError]

/-- C9: save of load is idempotent — whenever the record loads
successfully as some table, persisting that table unmodified yields a
record whose observable content (the mapping a subsequent load returns)
equals what the original record held; formatting is outside the model. -/
theorem save_load_idempotent (f : FileContent) (t : LinkTable)
    (hload : (loadLinks f).1 = .ok t) :
    saveLinks t = .table t ∧
    (loadLinks (saveLinks t)).1 = (loadLinks f).1 := by
  cases f <;> simp_all [loadLinks, saveLinks]

/-- Witness for C9 at a concrete input. -/
theorem save_load_idempotent_witness :
    saveLinks [("a", "https://x.example")] = .table [("a", "https://x.example")] ∧
    (loadLinks (saveLinks [("a", "https://x.example")])).1
      = (loadLinks (.table [("a", "https://x.example")])).1 :=
  save_load_idempotent (.table [("a", "https://x.example")])
    [("a", "https://x.example")] rfl

/-- C10: a create request supplying the empty string as its requested
code is handled exactly as if the code were omitted — `shortCode || ...`
treats both as falsy — so the generated token is assigned instead; and
the token built from the four random bytes is their hex encoding: eight
characters, each a lowercase hexadecimal digit. -/
theorem empty_requested_code_uses_generated (f : FileContent) (url : String)
    (bs : List Nat) (_hurl : url ≠ "") (hlen : bs.length = 4)
    (hbytes : ∀ b ∈ bs, b < 256) :
    handleShorten f url (some "") (bytesToHex bs)
      = handleShorten f url none (bytesToHex bs) ∧
    finalShortCode (some "") (bytesToHex bs) = bytesToHex bs ∧
    (bytesToHex bs).length = 8 ∧
    ∀ ch ∈ (bytesToHex bs).data, ch ∈ ("0123456789abcdef" : String).data := by
  refine ⟨by simp [handleShorten, shortenPhase1, shortenPhase2, finalShortCode],
    rfl, ?_, bytesToHex_chars bs hbytes⟩
  rw [bytesToHex_length, hlen]

/-- Witness for C10 at a concrete input. -/
theorem empty_requested_code_uses_generated_witness :
    handleShorten (.table []) "https://x.example" (some "")
        (bytesToHex [1, 35, 171, 205])
      = handleShorten (.table []) "https://x.example" none
        (bytesToHex [1, 35, 171, 205]) ∧
    finalShortCode (some "") (bytesToHex [1, 35, 171, 205])
      = bytesToHex [1, 35, 171, 205] ∧
    (bytesToHex [1, 35, 171, 205]).length = 8 ∧
    ∀ ch ∈ (bytesToHex [1, 35, 171, 205]).data,
      ch ∈ ("0123456789abcdef" : String).data :=
  empty_requested_code_uses_generated (.table []) "https://x.example"
    [1, 35, 171, 205] (by decide) (by decide) (by decide)

end URLShortener
